import Mathlib

/-!
Shallow embedding of the jasp job-lifecycle controller (src/jasp/jasp.py)
and the elastic-moduli reader (src/jasp/elastic_moduli.py).

Modelling conventions, stated once:

* The filesystem of one job directory is a record FS of the sentinel files
  the controller inspects; file contents are carried where the code reads
  them (jobid line, CONTCAR text, OUTCAR lines), existence-only files are
  Bool.  Every probe (os.path.exists, open) reads this record.
* External collaborators that are not part of this repository, or are repo
  modules absent from src/ (the ase Vasp calculator construction and its
  file readers, job_in_queue, read_neb_calculator, metadata IO), enter as
  fields of an environment record Env; see the doc comments marked
  "Modelled from the spec:".
* Errors are an inductive JaspErr; Python exceptions map to constructors.
  A NameError models the read of the unbound local variable self at the
  CHGCAR-cleanup line of Jasp, and the unbound variable data in
  get_elastic_moduli; TypeError models len(None).
* Side effects that survive a raised exception (file deletions performed
  before the raise) are modelled by returning the updated FS next to an
  Except result.
-/

set_option autoImplicit false

/-- Association-list lookup for a Python dict of parameters (first match). -/
def lookupKV : List (String × Int) → String → Option Int
  | [], _ => none
  | kv :: rest, k => if kv.1 = k then some kv.2 else lookupKV rest k

/-- Python dict assignment d[k] = v on an insertion-ordered association list:
replace the value at an existing key, else append the new pair. -/
def aset (l : List (String × Int)) (k : String) (v : Int) : List (String × Int) :=
  if l.any (fun kv => kv.1 == k) then
    l.map (fun kv => if kv.1 = k then (k, v) else kv)
  else l ++ [(k, v)]

/-- Python substring test needle in hay. -/
def strContains (hay needle : String) : Bool :=
  (List.range (hay.toList.length + 1)).any
    (fun i => needle.toList.isPrefixOf (hay.toList.drop i))

/-- Python str.startswith test. -/
def pyStartswith (s pre : String) : Bool :=
  pre.toList.isPrefixOf s.toList

/-- Python slice l[-n:]: the last n elements (all of l when shorter). -/
def lastN {α : Type} (n : Nat) (l : List α) : List α :=
  l.drop (l.length - n)

/-- The OUTCAR termination marker tested by calculation_is_ok. -/
def marker : String := "Voluntary context switches"

/-- The separator line of 66 equals signs built by calculation_is_ok. -/
def sep66 : String := String.mk (List.replicate 66 '=')

/-- The eight parameter groups of the job handle (float, exp, string, int,
input, bool, list, dict), in the order the snapshot code copies them. -/
inductive PGroup : Type
  | floatP | expP | stringP | intP | inputP | boolP | listP | dictP
  deriving DecidableEq, Repr

/-- All eight parameter groups, in snapshot order. -/
def allPGroups : List PGroup :=
  [.floatP, .expP, .stringP, .intP, .inputP, .boolP, .listP, .dictP]

/-- The eight parameter-group dicts of a calculator, each an
insertion-ordered association list (a key absent from the list models a
key whose Python value is None/unset). -/
structure Params : Type where
  float_params : List (String × Int) := []
  exp_params : List (String × Int) := []
  string_params : List (String × Int) := []
  int_params : List (String × Int) := []
  input_params : List (String × Int) := []
  bool_params : List (String × Int) := []
  list_params : List (String × Int) := []
  dict_params : List (String × Int) := []
  deriving DecidableEq, Repr

/-- Project one parameter group out of a Params record. -/
def pgGet : PGroup → Params → List (String × Int)
  | .floatP, p => p.float_params
  | .expP, p => p.exp_params
  | .stringP, p => p.string_params
  | .intP, p => p.int_params
  | .inputP, p => p.input_params
  | .boolP, p => p.bool_params
  | .listP, p => p.list_params
  | .dictP, p => p.dict_params

/-- Write one parameter group of a Params record. -/
def pgSet : PGroup → Params → List (String × Int) → Params
  | .floatP, p, l => { p with float_params := l }
  | .expP, p, l => { p with exp_params := l }
  | .stringP, p, l => { p with string_params := l }
  | .intP, p, l => { p with int_params := l }
  | .inputP, p, l => { p with input_params := l }
  | .boolP, p, l => { p with bool_params := l }
  | .listP, p, l => { p with list_params := l }
  | .dictP, p, l => { p with dict_params := l }

/-- Modelled from the spec: calc.set(**kwargs) of the external ase Vasp
calculator routes each keyword into the parameter-group dict its key
belongs to (the routing tables live outside this repository, so the route
function is a parameter).  One keyword updates exactly one group. -/
def setOne (route : String → PGroup) (p : Params) (k : String) (v : Int) : Params :=
  pgSet (route k) p (aset (pgGet (route k) p) k v)

/-- Apply a whole kwargs dict left to right, as calc.set(**kwargs) does. -/
def setParams (route : String → PGroup) (p : Params) (kvs : List (String × Int)) : Params :=
  kvs.foldl (fun acc kv => setOne route acc kv.1 kv.2) p

/-- The parameter groups whose dict differs between two Params records, in
snapshot order; this is the diff the snapshot tracker exposes. -/
def diffGroups (old new : Params) : List PGroup :=
  allPGroups.filter (fun g => decide (pgGet g old ≠ pgGet g new))

/-- A registered post-completion hook: an identity plus whether calling it
raises.  Modelled from the spec: hooks are user functions registered on
the job handle before the finished state is observed; registration itself
is outside src/. -/
structure Hook : Type where
  hid : Nat
  ok : Bool
  deriving DecidableEq, Repr

/-- The in-memory job handle (the patched ase Vasp calculator object).
old_*_params are the per-group snapshot attributes the controller assigns;
none models an attribute never assigned. -/
structure Calc : Type where
  params : Params := {}
  old_float_params : Option (List (String × Int)) := none
  old_exp_params : Option (List (String × Int)) := none
  old_string_params : Option (List (String × Int)) := none
  old_int_params : Option (List (String × Int)) := none
  old_input_params : Option (List (String × Int)) := none
  old_bool_params : Option (List (String × Int)) := none
  old_list_params : Option (List (String × Int)) := none
  old_dict_params : Option (List (String × Int)) := none
  sort : Option (List Nat) := none
  resort : Option (List Nat) := none
  atoms : Option Nat := none
  vasp_queued : Bool := false
  vasp_running : Bool := false
  converged : Bool := false
  neb : Bool := false
  loaded : Bool := false
  vaspdir : Option String := none
  cwd : Option String := none
  deriving DecidableEq, Repr

/-- The sentinel-file state of one job directory, plus the process-wide
current working directory and the set of existing directories (for the
context manager).  Atoms objects are modelled by their length. -/
structure FS : Type where
  cwd : String := ""
  dirs : List String := []
  incar : Bool := false
  jobid : Option String := none
  running : Bool := false
  contcar : Option String := none
  outcar : Option (List String) := none
  vasprun_xml : Bool := false
  chgcar : Bool := false
  wavecar : Bool := false
  ase_sort_dat : Option (List (Nat × Nat)) := none
  poscar : Option Nat := none
  kpoints : Bool := false
  metadata : Bool := false
  joboutput : Option (String × List String) := none
  deriving DecidableEq, Repr

/-- Python exceptions the embedded code can raise. -/
inductive JaspErr : Type
  | nameError
  | typeError
  | indexError
  | ioError (file : String)
  | osError (file : String)
  | notFinished (msg : String)
  | unknownState (dir : String)
  | hookError (hid : Nat)
  deriving DecidableEq, Repr

/-- Modelled from the spec: the external collaborators of the controller —
the queue probe queueContains (job_in_queue, a repo module absent from
src/), the ase readers that fill a calculator from INCAR/POTCAR/KPOINTS,
the full restart loader Vasp(restart=True), the multi-image (NEB) loader
and initializer, and the hook registry. -/
structure Env : Type where
  inQueue : Bool
  incarParams : Params
  route : String → PGroup
  post_run_hooks : Option (List Hook) := none
  nebLoadOk : Bool := false
  nebCalc : Calc := {}
  nebInit : Calc := {}
  loadedAtoms : Nat := 0
  loadedConverged : Bool := false

/-- The named arguments of the Jasp wrapper that the claims exercise;
kwargs is the **kwargs dict. -/
structure Args : Type where
  atoms : Option Nat := none
  keep_chgcar : Bool := false
  keep_wavecar : Bool := false
  kwargs : List (String × Int) := []
  deriving DecidableEq, Repr

instance {ε α : Type} [DecidableEq ε] [DecidableEq α] : DecidableEq (Except ε α) :=
  fun a b =>
    match a, b with
    | .ok x, .ok y =>
      match decEq x y with
      | isTrue h => isTrue (by rw [h])
      | isFalse h => isFalse (by intro hc; cases hc; exact h rfl)
    | .error x, .error y =>
      match decEq x y with
      | isTrue h => isTrue (by rw [h])
      | isFalse h => isFalse (by intro hc; cases hc; exact h rfl)
    | .ok _, .error _ => isFalse (by intro hc; cases hc)
    | .error _, .ok _ => isFalse (by intro hc; cases hc)

/-- The joboutput preamble built by calculation_is_ok lines 65-76: scan the
directory for a file whose name contains "o" followed by the job id and
splice its lines between banner lines; otherwise a single newline.
FS.joboutput holds the one candidate directory entry (name, lines). -/
def outputOf (fs : FS) (jobid : Option String) : List String :=
  match jobid with
  | none => ["\n"]
  | some j =>
    match fs.joboutput with
    | none => ["\n"]
    | some (fname, ls) =>
      if strContains fname ("o" ++ j) then
        (["joboutput file: " ++ j, "\n" ++ sep66 ++ "\n", fname ++ ":\n"]
          ++ ls ++ [sep66, "\n"])
      else ["\n"]

/-- The diagnostic string of the no-termination-marker failure:
the joined output list after appending the banner, the last 20 OUTCAR
lines and a separator (source lines 90-93). -/
def noMarkerMsg (output : List String) (lines : List String) : String :=
  String.join (output ++ ["Last 20 lines of OUTCAR:\n"] ++ lastN 20 lines ++ [sep66])

/-- The message of the empty-CONTCAR failure (source lines 84-85). -/
def emptyContcarMsg : String :=
  "CONTCAR appears empty. It has been deleted. Please run your script again"

/-- calculation_is_ok (source lines 58-94): build the joboutput preamble,
require a CONTCAR with nonzero content (an empty one is deleted together
with the jobid file before raising VaspNotFinished), then require the
marker string inside the last OUTCAR line (else raise VaspNotFinished with
the last 20 lines); on success return True.  The FS is returned next to
the result so deletions performed before a raise remain visible. -/
def calculation_is_ok (fs : FS) (jobid : Option String) :
    FS × Except JaspErr Bool :=
  let output := outputOf fs jobid
  match fs.contcar with
  | none => (fs, .error (.ioError "CONTCAR"))
  | some content =>
    if ¬ content.length > 0 then
      -- os.unlink of CONTCAR, then of jobid; unlinking a missing file is OSError
      let fs1 := { fs with contcar := none }
      match fs1.jobid with
      | none => (fs1, .error (.osError "jobid"))
      | some _ => ({ fs1 with jobid := none }, .error (.notFinished emptyContcarMsg))
    else
      match fs.outcar with
      | none => (fs, .error (.ioError "OUTCAR"))
      | some lines =>
        match lines.getLast? with
        | none => (fs, .error .indexError)   -- lines[-1] of an empty list
        | some lastLine =>
          if ¬ strContains lastLine marker then
            (fs, .error (.notFinished (noMarkerMsg output lines)))
          else (fs, .ok true)

/-- The six guard conditions of the first if/elif chain of Jasp (source
lines 141, 150, 158-161, 206-208, 260-262, 279-281), in source order with
earlier guards winning; none matching is the silent fall-through of that
chain (it has no else of its own). -/
inductive Branch : Type
  | nebSpring | emptyDir | configuredNotSubmitted
  | queuedWaiting | queuedRunning | finishedFirst
  deriving DecidableEq, Repr

/-- Which branch of the first if/elif chain runs, re-reading each sentinel
fact in guard order; job_in_queue(None) is the external queue probe. -/
def selectBranch (env : Env) (args : Args) (fs : FS) : Option Branch :=
  if args.kwargs.any (fun kv => kv.1 == "spring") then some .nebSpring
  else if ¬ fs.incar then some .emptyDir
  else if fs.jobid.isNone && fs.incar && fs.contcar.isNone then
    some .configuredNotSubmitted
  else if fs.jobid.isSome && env.inQueue && !fs.running then some .queuedWaiting
  else if fs.jobid.isSome && env.inQueue && fs.running then some .queuedRunning
  else if fs.jobid.isSome && !env.inQueue && !fs.running then some .finishedFirst
  else none

/-- A fresh Vasp(restart, output_template, track_output) calculator with
nothing read yet. -/
def freshCalc : Calc := {}

/-- Modelled from the spec: Vasp(restart=True), the external full restart
loader — a handle with the input parameters read and results loaded. -/
def loadedCalc (env : Env) : Calc :=
  { params := env.incarParams, atoms := some env.loadedAtoms,
    converged := env.loadedConverged, loaded := true }

/-- Modelled from the spec: attaching a structure to a handle
(atoms.calc = calc / atoms.set_calculator(calc)) records the structure on
the handle. -/
def attachAtoms (c : Calc) (a : Option Nat) : Calc :=
  match a with
  | some n => { c with atoms := some n }
  | none => c

/-- Outcome of the first if/elif chain: which local variables are bound
afterwards.  Only the queued-not-running branch binds the local self (and
there calc is self); every other branch binds only calc; on fall-through
neither is bound. -/
inductive ChainOut : Type
  | fall
  | plain (c : Calc)
  | withSelf (c : Calc)
  deriving DecidableEq, Repr

/-- Fire the post_run_hooks loop (source lines 314-316): call each hook in
registration order with the handle; a raising hook stops the loop and its
exception propagates.  Returns the invocation events (hook id, argument). -/
def runHooks (hooks : List Hook) (c : Calc) :
    List (Nat × Calc) × Except JaspErr Unit :=
  match hooks with
  | [] => ([], .ok ())
  | h :: rest =>
    if h.ok then
      let (ev, r) := runHooks rest c
      ((h.hid, c) :: ev, r)
    else ([(h.hid, c)], .error (.hookError h.hid))

/-- Lines 226-247 in the queued-not-running branch: read or synthesize the
sort/resort arrays and attach a structure to self.  With a sort file the
arrays come from its two columns and patoms is POSCAR reordered by resort;
without one patoms is POSCAR as read and both arrays are
range(len(atoms)) over the caller atoms argument — len(None) is a
TypeError when no atoms were passed. -/
def queuedStep (args : Args) (fs : FS) (s0 : Calc) : Except JaspErr Calc :=
  match fs.ase_sort_dat with
  | some rows =>
    let s1 := { s0 with sort := some (rows.map Prod.fst),
                        resort := some (rows.map Prod.snd) }
    match fs.poscar with
    | none => .error (.ioError "POSCAR")
    | some n =>
      -- patoms = ase.io.read(POSCAR)[self.resort]
      if (rows.map Prod.snd).any (fun i => n ≤ i) then
        .error .indexError
      else
        let patoms := (rows.map Prod.snd).length
        match args.atoms with
        | some a => .ok (attachAtoms s1 (some a))
        | none => .ok { s1 with atoms := some patoms }
  | none =>
    match fs.poscar with
    | none => .error (.ioError "POSCAR")
    | some n =>
      let patoms := n
      match args.atoms with
      | none => .error .typeError    -- range(len(atoms)) with atoms None
      | some a =>
        let s1 := { s0 with sort := some (List.range a),
                            resort := some (List.range a) }
        .ok (attachAtoms s1 (some a))

/-- Body of the selected branch of the first chain.  Readers collapsed
into Env (read_incar/read_potcar fill the parameters; read_kpoints raises
IOError when KPOINTS is missing and is wrapped in try/except only in the
configured-not-submitted branch).  Returns (fs, hook events, chain
outcome or raised exception). -/
def runBranch (env : Env) (args : Args) (fs : FS) :
    Branch → FS × List (Nat × Calc) × Except JaspErr ChainOut
  -- lines 141-147: NEB bootstrap, try read_neb_calculator else initialize
  | .nebSpring =>
    if env.nebLoadOk then
      (fs, [], .ok (.plain
        { env.nebCalc with
          params := setParams env.route env.nebCalc.params args.kwargs }))
    else (fs, [], .ok (.plain env.nebInit))
  -- lines 149-155: empty directory, fresh calculator, attach atoms
  | .emptyDir =>
    (fs, [], .ok (.plain (attachAtoms freshCalc args.atoms)))
  -- lines 157-203: input files exist, never submitted
  | .configuredNotSubmitted =>
    let c0 :=
      match fs.ase_sort_dat with
      | some rows =>
        { freshCalc with sort := some (rows.map Prod.fst),
                         resort := some (rows.map Prod.snd) }
      | none => freshCalc
    let c1 := { c0 with params := env.incarParams }   -- read_incar, read_potcar
    let c2 :=
      if (lookupKV c1.params.int_params "images").isSome then env.nebCalc else c1
    -- try read_kpoints except IOError: pass — no observable effect here
    let c3 :=
      match args.atoms with
      | some a => attachAtoms c2 (some a)
      | none =>
        match fs.poscar with                           -- try ase.io.read POSCAR
        | some n => attachAtoms c2 (some n)
        | none => c2                                   -- except IOError: pass
    (fs, [], .ok (.plain c3))
  -- lines 205-257: in queue, not running; binds the local self
  | .queuedWaiting =>
    let s0 := { freshCalc with params := env.incarParams }  -- self.read_incar()
    if (lookupKV s0.params.int_params "images").isSome then
      -- line 222 binds a local calc that line 255 overwrites with self;
      -- self.sort and self.atoms were never assigned on this path
      match (if fs.kpoints then Except.ok () else .error (.ioError "KPOINTS") :
          Except JaspErr Unit) with
      | .error e => (fs, [], .error e)
      | .ok _ =>
        let s1 := { s0 with
          old_input_params := some s0.params.input_params,
          converged := false, vasp_queued := true }
        (fs, [], .ok (.withSelf s1))
    else
      match queuedStep args fs s0 with
      | .error e => (fs, [], .error e)
      | .ok s2 =>
        -- self.read_kpoints() is not wrapped in try here
        if ¬ fs.kpoints then (fs, [], .error (.ioError "KPOINTS"))
        else
          let s3 := { s2 with
            old_input_params := some s2.params.input_params,
            converged := false, vasp_queued := true }
          (fs, [], .ok (.withSelf s3))
  -- lines 259-275: in queue and running
  | .queuedRunning =>
    let c0 := { freshCalc with params := env.incarParams }  -- read_incar
    let c1 :=
      if (lookupKV c0.params.int_params "images").isSome then env.nebCalc
      else loadedCalc env
    let c2 := attachAtoms c1 args.atoms
    (fs, [], .ok (.plain { c2 with vasp_running := true }))
  -- lines 277-316: finished, first observation
  | .finishedFirst =>
    match fs.jobid with
    | none => (fs, [], .error (.ioError "jobid"))  -- unreachable under the guard
    | some line =>
      let j := (line.splitOn ".").headD ""
      match calculation_is_ok fs (some j) with
      | (fs1, .error e) => (fs1, [], .error e)
      | (fs1, .ok _) =>
        match fs1.jobid with
        | none => (fs1, [], .error (.osError "jobid"))  -- os.unlink('jobid')
        | some _ =>
          let fs2 := { fs1 with jobid := none }
          let c0 := { freshCalc with params := env.incarParams }  -- read_incar
          let c1 :=
            if (lookupKV c0.params.int_params "images").isSome then env.nebCalc
            else loadedCalc env
          let c2 :=
            if args.atoms.isSome && !c1.neb then attachAtoms c1 args.atoms else c1
          match env.post_run_hooks with
          | none => (fs2, [], .ok (.plain c2))
          | some hooks =>
            let (ev, r) := runHooks hooks c2
            match r with
            | .ok _ => (fs2, ev, .ok (.plain c2))
            | .error e => (fs2, ev, .error e)

/-- The tail of Jasp from source line 346: read METADATA if present (reader
collapsed, no observable effect on the model), copy the eight old_*
parameter groups, apply calc.set(**kwargs), create METADATA when absent
and the job is not multi-image, and return the calculator. -/
def jaspTail (env : Env) (args : Args) (fs : FS) (ev : List (Nat × Calc))
    (c : Calc) : FS × List (Nat × Calc) × Except JaspErr Calc :=
  let c1 := { c with
    old_float_params := some c.params.float_params,
    old_exp_params := some c.params.exp_params,
    old_string_params := some c.params.string_params,
    old_int_params := some c.params.int_params,
    old_input_params := some c.params.input_params,
    old_bool_params := some c.params.bool_params,
    old_list_params := some c.params.list_params,
    old_dict_params := some c.params.dict_params }
  let c2 := { c1 with params := setParams env.route c1.params args.kwargs }
  let fs2 :=
    if ¬ fs.metadata && (lookupKV c2.params.int_params "images").isNone then
      { fs with metadata := true }
    else fs
  (fs2, ev, .ok c2)

/-- Source lines 318-344.  These two cleanup ifs sit at function-body
indentation between the first chain and the finished-previously-observed
elif, so that elif and the final else attach to the WAVECAR if; both
cleanup conditions read the local self, which only the queued-not-running
branch ever binds — every other path raises NameError here. -/
def afterChain (env : Env) (args : Args) (fs : FS) (ev : List (Nat × Calc)) :
    ChainOut → FS × List (Nat × Calc) × Except JaspErr Calc
  | .fall => (fs, ev, .error .nameError)
  | .plain _ => (fs, ev, .error .nameError)
  | .withSelf c =>
    -- self is bound; self.keep_chgcar / self.keep_wavecar hold the call args
    let fs1 :=
      if !args.keep_chgcar && fs.chgcar then { fs with chgcar := false } else fs
    if !args.keep_wavecar && fs1.wavecar then
      jaspTail env args { fs1 with wavecar := false } ev c
    else if fs1.jobid.isNone && !fs1.running && fs1.contcar.isSome
        && fs1.outcar.isSome && fs1.vasprun_xml then
      -- lines 328-341: finished, previously observed
      match calculation_is_ok fs1 none with
      | (fs2, .error e) => (fs2, ev, .error e)
      | (fs2, .ok b) =>
        let c1 := if b then loadedCalc env else c
        let c2 := attachAtoms c1 args.atoms
        jaspTail env args fs2 ev c2
    else (fs1, ev, .error (.unknownState fs1.cwd))

/-- The Jasp wrapper (source lines 103-367): run the first if/elif chain,
then the cleanup chain with its attached elif/else, then the common tail.
Returns the final directory state, the hook-invocation events, and the
calculator or the exception that escaped. -/
def Jasp (env : Env) (args : Args) (fs : FS) :
    FS × List (Nat × Calc) × Except JaspErr Calc :=
  match selectBranch env args fs with
  | none => afterChain env args fs [] .fall
  | some b =>
    match runBranch env args fs b with
    | (fs1, ev, .error e) => (fs1, ev, .error e)
    | (fs1, ev, .ok out) => afterChain env args fs1 ev out

/-- jasp.__enter__ (source lines 393-423): create the target directory if
missing, chdir into it, call Jasp, annotate the handle with the target and
original directories.  An exception from Jasp escapes from enter itself. -/
def jasp_enter (env : Env) (args : Args) (vaspdir : String) (fs : FS) :
    FS × List (Nat × Calc) × Except JaspErr Calc :=
  let fs1 := if vaspdir ∈ fs.dirs then fs else { fs with dirs := vaspdir :: fs.dirs }
  let fs2 := { fs1 with cwd := vaspdir }
  match Jasp env args fs2 with
  | (fs3, ev, .error e) => (fs3, ev, .error e)
  | (fs3, ev, .ok c) =>
    (fs3, ev, .ok { c with vaspdir := some vaspdir, cwd := some fs.cwd })

/-- jasp.__exit__ (source lines 425-430): chdir back to the remembered
original directory; returning False means a pending exception propagates. -/
def jasp_exit (origCwd : String) (fs : FS) : FS :=
  { fs with cwd := origCwd }

/-- One with jasp(vaspdir) as calc: block, under Python with-statement
semantics: if __enter__ raises, __exit__ is never called; otherwise the
body runs on the returned handle and __exit__ runs on every exit path of
the body, not suppressing its exception. -/
def jasp_with (env : Env) (args : Args) (vaspdir : String) (fs : FS)
    (body : Calc → Except JaspErr Unit) :
    FS × List (Nat × Calc) × Except JaspErr Unit :=
  match jasp_enter env args vaspdir fs with
  | (fs1, ev, .error e) => (fs1, ev, .error e)
  | (fs1, ev, .ok c) =>
    let r := body c
    (jasp_exit fs.cwd fs1, ev, r)

/-- Python str.split() with no argument: split on whitespace runs,
dropping empty fields. -/
def pySplitWS (s : String) : List String :=
  (s.split Char.isWhitespace).filter (fun t => t ≠ "")

/-- The header prefix tested with startswith. -/
def moduliHeader : String := " TOTAL ELASTIC MODULI (kBar)"

/-- One row of the returned matrix: drop the leading label field, read the
rest numerically, scale by 0.1. -/
def moduliRow (floatF : String → ℚ) (line : String) : List ℚ :=
  ((pySplitWS line).drop 1).map (fun t => floatF t * (1 / 10))

/-- get_elastic_moduli (src/jasp/elastic_moduli.py lines 4-34): scan the
OUTCAR lines for the first one starting with the TOTAL ELASTIC MODULI
header, take the six lines beginning three lines below it, parse every
field after the first of each as a float, and scale the matrix by 0.1
(kBar to GPa).  Without a header line the loop never assigns data and the
subsequent read of data raises NameError, modelled as none.  floatF is
the numeric reading of one field (Python float(), an external primitive). -/
def get_elastic_moduli (floatF : String → ℚ) (lines : List String) :
    Option (List (List ℚ)) :=
  match lines.findIdx? (fun l => pyStartswith l moduliHeader) with
  | none => none
  | some i => some (((lines.drop (i + 3)).take 6).map (moduliRow floatF))

/-! ### Helper lemmas about the dictionary and hook primitives -/

theorem lookupKV_replace (l : List (String × Int)) (k : String) (v : Int)
    (h : l.any (fun kv => kv.1 == k) = true) :
    lookupKV (l.map (fun kv => if kv.1 = k then (k, v) else kv)) k = some v := by
  induction l with
  | nil => simp at h
  | cons a t ih =>
    by_cases hak : a.1 = k
    · simp [lookupKV, hak]
    · simp only [List.any_cons, Bool.or_eq_true, beq_iff_eq] at h
      rcases h with h | h
      · exact absurd h hak
      · simpa [lookupKV, hak] using ih h

theorem lookupKV_append_new (l : List (String × Int)) (k : String) (v : Int)
    (h : l.any (fun kv => kv.1 == k) = false) :
    lookupKV (l ++ [(k, v)]) k = some v := by
  induction l with
  | nil => simp [lookupKV]
  | cons a t ih =>
    rw [List.any_cons, Bool.or_eq_false_iff] at h
    have h1 : ¬ a.1 = k := by simpa using h.1
    simpa [lookupKV, h1] using ih h.2

theorem lookupKV_aset_self (l : List (String × Int)) (k : String) (v : Int) :
    lookupKV (aset l k v) k = some v := by
  unfold aset
  by_cases h : l.any (fun kv => kv.1 == k) = true
  · rw [if_pos h]; exact lookupKV_replace l k v h
  · rw [if_neg h]
    rw [Bool.not_eq_true] at h
    exact lookupKV_append_new l k v h

theorem lookupKV_replace_other (l : List (String × Int)) (k k' : String) (v : Int)
    (h : k' ≠ k) :
    lookupKV (l.map (fun kv => if kv.1 = k then (k, v) else kv)) k' = lookupKV l k' := by
  induction l with
  | nil => rfl
  | cons a t ih =>
    by_cases hak : a.1 = k
    · have h1 : ¬ (k : String) = k' := fun hc => h hc.symm
      have h2 : ¬ a.1 = k' := by rw [hak]; exact h1
      simp [lookupKV, hak, h1, h2, ih]
    · by_cases hak' : a.1 = k' <;> simp [lookupKV, hak, hak', h, ih]

theorem lookupKV_append_other (l : List (String × Int)) (k k' : String) (v : Int)
    (h : k' ≠ k) :
    lookupKV (l ++ [(k, v)]) k' = lookupKV l k' := by
  induction l with
  | nil =>
    have h1 : ¬ (k : String) = k' := fun hc => h hc.symm
    simp [lookupKV, h1]
  | cons a t ih =>
    by_cases hak' : a.1 = k' <;> simp [lookupKV, hak', ih]

theorem lookupKV_aset_other (l : List (String × Int)) (k k' : String) (v : Int)
    (h : k' ≠ k) : lookupKV (aset l k v) k' = lookupKV l k' := by
  unfold aset
  by_cases ha : l.any (fun kv => kv.1 == k) = true
  · rw [if_pos ha]; exact lookupKV_replace_other l k k' v h
  · rw [if_neg ha]; exact lookupKV_append_other l k k' v h


theorem pgGet_pgSet (g g' : PGroup) (p : Params) (l : List (String × Int)) :
    pgGet g (pgSet g' p l) = if g = g' then l else pgGet g p := by
  cases g <;> cases g' <;> simp [pgGet, pgSet]

theorem pgGet_setOne_self (route : String → PGroup) (p : Params) (k : String) (v : Int) :
    pgGet (route k) (setOne route p k v) = aset (pgGet (route k) p) k v := by
  simp [setOne, pgGet_pgSet]

theorem pgGet_setOne_other (route : String → PGroup) (p : Params) (k : String) (v : Int)
    (g : PGroup) (h : route k ≠ g) : pgGet g (setOne route p k v) = pgGet g p := by
  unfold setOne
  rw [pgGet_pgSet, if_neg (fun hc : g = route k => h hc.symm)]

theorem lookupKV_pgGet_setOne (route : String → PGroup) (p : Params) (k k' : String)
    (v : Int) (g : PGroup) (h : k' ≠ k) :
    lookupKV (pgGet g (setOne route p k v)) k' = lookupKV (pgGet g p) k' := by
  by_cases hg : route k = g
  · subst hg; rw [pgGet_setOne_self]; exact lookupKV_aset_other _ _ _ _ h
  · rw [pgGet_setOne_other route p k v g hg]

theorem pgGet_setParams_untouched (route : String → PGroup) (g : PGroup) :
    ∀ (kvs : List (String × Int)) (p : Params),
    (∀ kv ∈ kvs, route kv.1 ≠ g) → pgGet g (setParams route p kvs) = pgGet g p := by
  intro kvs
  induction kvs with
  | nil => intro p _; rfl
  | cons a t ih =>
    intro p h
    have h1 : route a.1 ≠ g := h a (List.mem_cons_self a t)
    have h2 : ∀ kv ∈ t, route kv.1 ≠ g := fun kv hkv => h kv (List.mem_cons_of_mem a hkv)
    calc pgGet g (setParams route (setOne route p a.1 a.2) t)
        = pgGet g (setOne route p a.1 a.2) := ih (setOne route p a.1 a.2) h2
      _ = pgGet g p := pgGet_setOne_other route p a.1 a.2 g h1

theorem lookupKV_setParams_pres (route : String → PGroup) (g : PGroup) (k : String) :
    ∀ (kvs : List (String × Int)) (p : Params), k ∉ kvs.map Prod.fst →
    lookupKV (pgGet g (setParams route p kvs)) k = lookupKV (pgGet g p) k := by
  intro kvs
  induction kvs with
  | nil => intro p _; rfl
  | cons a t ih =>
    intro p h
    simp only [List.map_cons, List.mem_cons] at h
    push_neg at h
    calc lookupKV (pgGet g (setParams route (setOne route p a.1 a.2) t)) k
        = lookupKV (pgGet g (setOne route p a.1 a.2)) k := ih _ h.2
      _ = lookupKV (pgGet g p) k := lookupKV_pgGet_setOne route p a.1 k a.2 g h.1

theorem lookupKV_setParams_found (route : String → PGroup) :
    ∀ (kvs : List (String × Int)) (p : Params) (k : String) (v : Int),
    (kvs.map Prod.fst).Nodup → (k, v) ∈ kvs →
    lookupKV (pgGet (route k) (setParams route p kvs)) k = some v := by
  intro kvs
  induction kvs with
  | nil => intro p k v _ hmem; simp at hmem
  | cons a t ih =>
    intro p k v hnd hmem
    simp only [List.map_cons, List.nodup_cons] at hnd
    rcases List.mem_cons.mp hmem with heq | hmem'
    · subst heq
      calc lookupKV (pgGet (route k) (setParams route (setOne route p k v) t)) k
          = lookupKV (pgGet (route k) (setOne route p k v)) k := by
            exact lookupKV_setParams_pres route (route k) k t _ hnd.1
        _ = some v := by rw [pgGet_setOne_self]; exact lookupKV_aset_self _ _ _
    · exact ih (setOne route p a.1 a.2) k v hnd.2 hmem'

theorem diffGroups_setParams (route : String → PGroup) (kvs : List (String × Int))
    (p : Params) (hnd : (kvs.map Prod.fst).Nodup)
    (hch : ∀ kv ∈ kvs, lookupKV (pgGet (route kv.1) p) kv.1 ≠ some kv.2) :
    diffGroups p (setParams route p kvs) =
      allPGroups.filter (fun g => kvs.any (fun kv => decide (route kv.1 = g))) := by
  unfold diffGroups
  apply List.filter_congr
  intro g _
  by_cases hex : ∃ kv ∈ kvs, route kv.1 = g
  · rcases hex with ⟨kv, hmem, hroute⟩
    have hfound : lookupKV (pgGet g (setParams route p kvs)) kv.1 = some kv.2 := by
      rw [← hroute]; exact lookupKV_setParams_found route kvs p kv.1 kv.2 hnd hmem
    have hold : lookupKV (pgGet (route kv.1) p) kv.1 ≠ some kv.2 := hch kv hmem
    rw [hroute] at hold
    have hne : pgGet g p ≠ pgGet g (setParams route p kvs) := by
      intro hcongr
      rw [hcongr] at hold
      exact hold hfound
    have hany : kvs.any (fun kv => decide (route kv.1 = g)) = true := by
      simp only [List.any_eq_true]
      exact ⟨kv, hmem, by simp [hroute]⟩
    simp [hne, hany]
  · push_neg at hex
    have heq : pgGet g (setParams route p kvs) = pgGet g p :=
      pgGet_setParams_untouched route g kvs p hex
    have hany : kvs.any (fun kv => decide (route kv.1 = g)) = false := by
      simp only [List.any_eq_false]
      intro kv hkv
      simp [hex kv hkv]
    simp [heq, hany]

theorem runHooks_all_ok (c : Calc) :
    ∀ hooks : List Hook, (∀ h ∈ hooks, h.ok = true) →
    runHooks hooks c = (hooks.map (fun h => (h.hid, c)), .ok ()) := by
  intro hooks
  induction hooks with
  | nil => intro _; rfl
  | cons h t ih =>
    intro hall
    have hh : h.ok = true := hall h (List.mem_cons_self h t)
    have ht := ih (fun g hg => hall g (List.mem_cons_of_mem h hg))
    simp [runHooks, hh, ht]

theorem runHooks_stops_at_failure (c : Calc) :
    ∀ (pre : List Hook) (hk : Hook) (post : List Hook),
    (∀ g ∈ pre, g.ok = true) → hk.ok = false →
    runHooks (pre ++ hk :: post) c =
      (pre.map (fun g => (g.hid, c)) ++ [(hk.hid, c)], .error (.hookError hk.hid)) := by
  intro pre
  induction pre with
  | nil => intro hk post _ hbad; simp [runHooks, hbad]
  | cons g t ih =>
    intro hk post hall hbad
    have hg : g.ok = true := hall g (List.mem_cons_self g t)
    have ht := ih hk post (fun x hx => hall x (List.mem_cons_of_mem g hx)) hbad
    simp [runHooks, hg, ht]

/-! ### Claim theorems -/

theorem findIdx_first_aux {α : Type} (p : α → Bool) :
    ∀ (l : List α) (i : Nat) (h : i < l.length),
    p (l.get ⟨i, h⟩) = true →
    (∀ (k : Nat) (hk : k < i), p (l.get ⟨k, lt_trans hk h⟩) = false) →
    l.findIdx? p = some i := by
  intro l
  induction l with
  | nil => intro i h _ _; exact absurd h (by simp)
  | cons a t ih =>
    intro i h hp hfirst
    cases i with
    | zero =>
      have ha : p a = true := hp
      simp [List.findIdx?_cons, ha]
    | succ j =>
      have ha : p a = false := hfirst 0 (Nat.succ_pos j)
      have hj : j < t.length := Nat.lt_of_succ_lt_succ h
      have hp' : p (t.get ⟨j, hj⟩) = true := hp
      have hfirst' : ∀ (k : Nat) (hk : k < j), p (t.get ⟨k, lt_trans hk hj⟩) = false :=
        fun k hk => hfirst (k + 1) (Nat.succ_lt_succ hk)
      have ht := ih j hj hp' hfirst'
      simp [List.findIdx?_cons, ha, List.findIdx?_succ, ht]

/-- C9: get_elastic_moduli returns the matrix formed, from the six lines
beginning three lines after the first OUTCAR line starting with the TOTAL
ELASTIC MODULI header, by reading every field after the first of each line
numerically and multiplying by 0.1 (kBar to GPa); with no header line it
fails (NameError on the unbound data variable) instead of returning. -/
theorem C9_elastic_moduli (floatF : String → ℚ) (lines : List String) :
    (∀ (i : Nat) (h : i < lines.length),
      pyStartswith (lines.get ⟨i, h⟩) moduliHeader = true →
      (∀ (k : Nat) (hk : k < i),
        pyStartswith (lines.get ⟨k, lt_trans hk h⟩) moduliHeader = false) →
      get_elastic_moduli floatF lines =
        some (((lines.drop (i + 3)).take 6).map
          (fun line => ((pySplitWS line).drop 1).map (fun t => floatF t * (1 / 10))))) ∧
    ((∀ l ∈ lines, pyStartswith l moduliHeader = false) →
      get_elastic_moduli floatF lines = none) := by
  constructor
  · intro i h hp hfirst
    have hidx := findIdx_first_aux (fun l => pyStartswith l moduliHeader) lines i h hp hfirst
    unfold get_elastic_moduli
    rw [hidx]
    rfl
  · intro hall
    have hidx : lines.findIdx? (fun l => pyStartswith l moduliHeader) = none :=
      List.findIdx?_eq_none_iff.mpr hall
    unfold get_elastic_moduli
    rw [hidx]

def linesC9 : List String :=
  ["preamble", " TOTAL ELASTIC MODULI (kBar) extra", "sep", "direction",
   "XX 10 20", "YY 30 40", "ZZ 50 60", "XY 70 80", "YZ 90 100", "ZX 110 120",
   "trailing"]

set_option maxRecDepth 100000 in
theorem C9_witness :
    get_elastic_moduli (fun _ => (3 : ℚ)) linesC9 =
      some (((linesC9.drop 4).take 6).map
        (fun line => ((pySplitWS line).drop 1).map (fun t => (fun _ => (3 : ℚ)) t * (1 / 10)))) :=
  (C9_elastic_moduli (fun _ => (3 : ℚ)) linesC9).1 1 (by decide) (by decide)
    (fun k hk => by
      have hk0 : k = 0 := by omega
      subst hk0
      show pyStartswith "preamble" moduliHeader = false
      decide)

/-- C4: a present but zero-length CONTCAR makes the validator delete the
CONTCAR and the jobid file and raise the VaspNotFinished condition instead
of returning, and the directory then classifies as
configured-not-submitted (no jobid, INCAR present, no CONTCAR), a branch
on which the controller never raises VaspNotFinished again. -/
theorem C4_empty_contcar (env : Env) (args : Args) (fs : FS) (jid : Option String)
    (ct j : String)
    (hct : fs.contcar = some ct) (hlen : ct.length = 0) (hjob : fs.jobid = some j)
    (hincar : fs.incar = true)
    (hspring : args.kwargs.any (fun kv => kv.1 == "spring") = false) :
    calculation_is_ok fs jid =
      ({ fs with contcar := none, jobid := none }, .error (.notFinished emptyContcarMsg))
    ∧ selectBranch env args { fs with contcar := none, jobid := none } =
        some .configuredNotSubmitted
    ∧ ∀ m : String,
        (Jasp env args { fs with contcar := none, jobid := none }).2.2 ≠
          .error (.notFinished m) := by
  have hsel : selectBranch env args { fs with contcar := none, jobid := none } =
      some .configuredNotSubmitted := by
    unfold selectBranch
    simp [hspring, hincar]
  refine ⟨?_, hsel, ?_⟩
  · have hc : ¬ ct.length > 0 := by omega
    unfold calculation_is_ok
    simp only [hct, hjob, if_pos hc]
  · intro m
    have hplain : ∃ c, runBranch env args { fs with contcar := none, jobid := none }
        .configuredNotSubmitted =
        ({ fs with contcar := none, jobid := none }, [], .ok (.plain c)) := ⟨_, rfl⟩
    rcases hplain with ⟨c, hc⟩
    unfold Jasp
    simp only [hsel, hc]
    unfold afterChain
    simp

/-- C5 (amended): when the CONTCAR content is nonempty and the OUTCAR last
line lacks the termination marker, the validator fails with the
VaspNotFinished condition whose message carries the last 20 OUTCAR lines;
an empty CONTCAR instead triggers the empty-snapshot failure before the
log is examined (see the counterexample). -/
theorem C5_no_marker (fs : FS) (jid : Option String) (ct lline : String)
    (ls : List String)
    (hct : fs.contcar = some ct) (hlen : 0 < ct.length)
    (hout : fs.outcar = some ls) (hlast : ls.getLast? = some lline)
    (hmk : strContains lline marker = false) :
    calculation_is_ok fs jid =
      (fs, .error (.notFinished (noMarkerMsg (outputOf fs jid) ls))) := by
  have hc : ¬ ¬ ct.length > 0 := by omega
  have hm : ¬ strContains lline marker = true := by simp [hmk]
  unfold calculation_is_ok
  simp only [hct, hout, hlast, if_neg hc, if_pos hm]

def fsC5w : FS :=
  { cwd := "/d", incar := true, jobid := some "9", contcar := some "stuff",
    outcar := some ["a", "b trunc"] }

theorem C5_witness :
    calculation_is_ok fsC5w (some "9") =
      (fsC5w, .error (.notFinished
        (noMarkerMsg (outputOf fsC5w (some "9")) ["a", "b trunc"]))) :=
  C5_no_marker fsC5w (some "9") "stuff" "b trunc" ["a", "b trunc"]
    rfl (by decide) rfl rfl (by decide)

def fsC5c : FS :=
  { cwd := "/d", incar := true, jobid := some "9", contcar := some "",
    outcar := some ["good line", "bad end"] }

/-- C5 counterexample: with an empty CONTCAR and an OUTCAR whose last line
lacks the marker, the validator raises the empty-snapshot VaspNotFinished
(deleting CONTCAR and jobid) whose message does not carry the OUTCAR
tail — so the last-20-lines diagnostic is not independent of the
result-snapshot content. -/
theorem C5_counterexample :
    calculation_is_ok fsC5c none =
      ({ fsC5c with contcar := none, jobid := none },
        .error (.notFinished emptyContcarMsg))
    ∧ strContains emptyContcarMsg "bad end" = false := by
  constructor
  · decide
  · decide

def envC2 : Env := { inQueue := false, incarParams := {}, route := fun _ => .floatP }

def fsC2 : FS :=
  { cwd := "/done", incar := true, jobid := none, running := false,
    contcar := some "x",
    outcar := some ["line", "ok Voluntary context switches done"],
    vasprun_xml := true }

/-- C2 (code bug): on a directory in the finished-previously-observed
state (jobid absent, running absent, CONTCAR/OUTCAR/vasprun.xml present
and valid) the first lifecycle chain matches nothing, and the invocation
dies with NameError at the cache-cleanup line that reads the unbound local
self — no job handle is ever returned, on the first call or the second,
and no hook fires.  The elif meant for this state is attached to the
WAVECAR cleanup if, not to the lifecycle chain. -/
theorem C2_code_bug :
    Jasp envC2 {} fsC2 = (fsC2, [], .error .nameError)
    ∧ Jasp envC2 {} ((Jasp envC2 {} fsC2).1) = (fsC2, [], .error .nameError) := by
  constructor
  · decide
  · decide

def envC3 : Env := { inQueue := false, incarParams := {}, route := fun _ => .floatP }

def fsC3 : FS :=
  { cwd := "/jobdir", incar := true, jobid := none, running := true,
    contcar := some "x", outcar := some ["y"] }

/-- C3 (code bug): a sentinel combination matched by no lifecycle rule
(running-flag present, jobid absent, input and output files present)
deletes no files — but it raises NameError at the cache-cleanup line
instead of the intended VaspUnknownState naming the directory, because
the unrecognized-state else is attached to the WAVECAR cleanup if and the
fall-through path reads the unbound local self first. -/
theorem C3_code_bug :
    Jasp envC3 {} fsC3 = (fsC3, [], .error .nameError) := by
  decide

def envC8 : Env := { inQueue := false, incarParams := {}, route := fun _ => .floatP }

def fsC8 : FS := { cwd := "/new" }

/-- C8 (code bug): with no INCAR the first chain selects the empty-state
branch (so the jobid and running sentinels are never consulted) and builds
a fresh handle with the caller structure attached, but the invocation then
dies with NameError at the cache-cleanup line instead of returning that
handle; the directory state is untouched. -/
theorem C8_code_bug :
    selectBranch envC8 { atoms := some 3 } fsC8 = some .emptyDir
    ∧ runBranch envC8 { atoms := some 3 } fsC8 .emptyDir =
        (fsC8, [], .ok (.plain { freshCalc with atoms := some 3 }))
    ∧ Jasp envC8 { atoms := some 3 } fsC8 = (fsC8, [], .error .nameError) := by
  refine ⟨by decide, by decide, by decide⟩

/-- C1: from the finished-first-observation state (jobid present, queue
probe negative, running absent) with a validator-passing directory, one
invocation deletes the jobid file and fires every registered hook exactly
once, in registration order, with the job handle as argument; a failing
hook stops the loop and its exception propagates unchanged; if the
validator fails instead (no termination marker), the jobid file survives
and no hook fires; and a second invocation on the resulting directory
fires zero hooks. -/
theorem C1_exactly_once_hooks (env : Env) (hooks : List Hook) (fs : FS)
    (j ct lline : String) (ls : List String)
    (hq : env.inQueue = false)
    (hhk : env.post_run_hooks = some hooks)
    (himg : lookupKV env.incarParams.int_params "images" = none)
    (hincar : fs.incar = true)
    (hjob : fs.jobid = some j)
    (hrun : fs.running = false)
    (hct : fs.contcar = some ct) (hlen : 0 < ct.length)
    (hout : fs.outcar = some ls) (hlast : ls.getLast? = some lline)
    (hmk : strContains lline marker = true) :
    ((∀ h ∈ hooks, h.ok = true) →
      Jasp env {} fs =
        ({ fs with jobid := none },
         hooks.map (fun h => (h.hid, loadedCalc env)),
         .error .nameError))
    ∧ (∀ pre hk post, hooks = pre ++ hk :: post →
        (∀ g ∈ pre, g.ok = true) → hk.ok = false →
        Jasp env {} fs =
          ({ fs with jobid := none },
           pre.map (fun g => (g.hid, loadedCalc env)) ++ [(hk.hid, loadedCalc env)],
           .error (.hookError hk.hid)))
    ∧ (∀ (ls2 : List String) (l2 : String), ls2.getLast? = some l2 →
        strContains l2 marker = false →
        Jasp env {} { fs with outcar := some ls2 } =
          ({ fs with outcar := some ls2 }, [],
           .error (.notFinished (noMarkerMsg
             (outputOf { fs with outcar := some ls2 }
               (some ((j.splitOn ".").headD ""))) ls2))))
    ∧ Jasp env {} { fs with jobid := none } =
        ({ fs with jobid := none }, [], .error .nameError) := by
  obtain ⟨fcwd, fdirs, fincar, fjobid, frunning, fcontcar, foutcar, fvxml,
    fchg, fwav, fsortd, fposcar, fkp, fmeta, fjout⟩ := fs
  dsimp only at hincar hjob hrun hct hout
  subst hincar
  subst hjob
  subst hrun
  subst hct
  subst hout
  have hc : ¬ ¬ ct.length > 0 := by omega
  have hsel : selectBranch env {}
      ⟨fcwd, fdirs, true, some j, false, some ct, some ls, fvxml,
       fchg, fwav, fsortd, fposcar, fkp, fmeta, fjout⟩ = some .finishedFirst := by
    unfold selectBranch
    simp [hq]
  have hok : ∀ jarg, calculation_is_ok
      ⟨fcwd, fdirs, true, some j, false, some ct, some ls, fvxml,
       fchg, fwav, fsortd, fposcar, fkp, fmeta, fjout⟩ jarg =
      (⟨fcwd, fdirs, true, some j, false, some ct, some ls, fvxml,
        fchg, fwav, fsortd, fposcar, fkp, fmeta, fjout⟩, .ok true) := by
    intro jarg
    have hm : ¬ ¬ strContains lline marker = true := by simp [hmk]
    unfold calculation_is_ok
    simp only [hlast, if_neg hc, if_neg hm]
  have hbr : runBranch env {}
      ⟨fcwd, fdirs, true, some j, false, some ct, some ls, fvxml,
       fchg, fwav, fsortd, fposcar, fkp, fmeta, fjout⟩ .finishedFirst =
      (match runHooks hooks (loadedCalc env) with
       | (ev, .ok _) =>
         (⟨fcwd, fdirs, true, none, false, some ct, some ls, fvxml,
           fchg, fwav, fsortd, fposcar, fkp, fmeta, fjout⟩, ev,
          .ok (.plain (loadedCalc env)))
       | (ev, .error e) =>
         (⟨fcwd, fdirs, true, none, false, some ct, some ls, fvxml,
           fchg, fwav, fsortd, fposcar, fkp, fmeta, fjout⟩, ev, .error e)) := by
    unfold runBranch
    simp only [hok, himg, hhk, Option.isSome_none, Bool.false_and]
    rcases hr : runHooks hooks (loadedCalc env) with ⟨ev, r⟩
    cases r <;> simp [hr]
  refine ⟨?_, ?_, ?_, ?_⟩
  · intro hall
    have hev := runHooks_all_ok (loadedCalc env) hooks hall
    unfold Jasp
    rw [hsel]
    simp only [hbr, hev]
    unfold afterChain
    rfl
  · intro pre hk post hsplit hpre hbad
    subst hsplit
    have hev := runHooks_stops_at_failure (loadedCalc env) pre hk post hpre hbad
    unfold Jasp
    rw [hsel]
    simp only [hbr, hev]
  · intro ls2 l2 hlast2 hmk2
    have hsel2 : selectBranch env {}
        ⟨fcwd, fdirs, true, some j, false, some ct, some ls2, fvxml,
         fchg, fwav, fsortd, fposcar, fkp, fmeta, fjout⟩ = some .finishedFirst := by
      unfold selectBranch
      simp [hq]
    have hval : ∀ jarg, calculation_is_ok
        ⟨fcwd, fdirs, true, some j, false, some ct, some ls2, fvxml,
         fchg, fwav, fsortd, fposcar, fkp, fmeta, fjout⟩ jarg =
        (⟨fcwd, fdirs, true, some j, false, some ct, some ls2, fvxml,
          fchg, fwav, fsortd, fposcar, fkp, fmeta, fjout⟩,
         .error (.notFinished (noMarkerMsg
           (outputOf ⟨fcwd, fdirs, true, some j, false, some ct, some ls2, fvxml,
             fchg, fwav, fsortd, fposcar, fkp, fmeta, fjout⟩ jarg) ls2))) := by
      intro jarg
      have hm2 : ¬ strContains l2 marker = true := by simp [hmk2]
      unfold calculation_is_ok
      simp only [hlast2, if_neg hc, if_pos hm2]
    have hbr2 : runBranch env {}
        ⟨fcwd, fdirs, true, some j, false, some ct, some ls2, fvxml,
         fchg, fwav, fsortd, fposcar, fkp, fmeta, fjout⟩ .finishedFirst =
        (⟨fcwd, fdirs, true, some j, false, some ct, some ls2, fvxml,
          fchg, fwav, fsortd, fposcar, fkp, fmeta, fjout⟩, [],
         .error (.notFinished (noMarkerMsg
           (outputOf ⟨fcwd, fdirs, true, some j, false, some ct, some ls2, fvxml,
             fchg, fwav, fsortd, fposcar, fkp, fmeta, fjout⟩
             (some ((j.splitOn ".").headD ""))) ls2))) := by
      unfold runBranch
      simp only [hval]
    unfold Jasp
    rw [hsel2]
    simp only [hbr2]
  · have hsel3 : selectBranch env {}
        ⟨fcwd, fdirs, true, none, false, some ct, some ls, fvxml,
         fchg, fwav, fsortd, fposcar, fkp, fmeta, fjout⟩ = none := by
      unfold selectBranch
      simp [hq]
    unfold Jasp
    rw [hsel3]
    unfold afterChain
    rfl

def envC1 : Env :=
  { inQueue := false, incarParams := { int_params := [("nsw", 5)] },
    route := fun _ => .floatP,
    post_run_hooks := some [⟨1, true⟩, ⟨2, true⟩], loadedAtoms := 4 }

def fsC1 : FS :=
  { cwd := "/w", incar := true, jobid := some "77.q", running := false,
    contcar := some "x",
    outcar := some ["a", "ok Voluntary context switches done"],
    vasprun_xml := true }

set_option maxRecDepth 100000 in
theorem C1_witness :
    ((∀ h ∈ ([⟨1, true⟩, ⟨2, true⟩] : List Hook), h.ok = true) →
      Jasp envC1 {} fsC1 =
        ({ fsC1 with jobid := none },
         ([⟨1, true⟩, ⟨2, true⟩] : List Hook).map
           (fun h => (h.hid, loadedCalc envC1)),
         .error .nameError))
    ∧ (∀ pre hk post, ([⟨1, true⟩, ⟨2, true⟩] : List Hook) = pre ++ hk :: post →
        (∀ g ∈ pre, g.ok = true) → hk.ok = false →
        Jasp envC1 {} fsC1 =
          ({ fsC1 with jobid := none },
           pre.map (fun g => (g.hid, loadedCalc envC1)) ++
             [(hk.hid, loadedCalc envC1)],
           .error (.hookError hk.hid)))
    ∧ (∀ (ls2 : List String) (l2 : String), ls2.getLast? = some l2 →
        strContains l2 marker = false →
        Jasp envC1 {} { fsC1 with outcar := some ls2 } =
          ({ fsC1 with outcar := some ls2 }, [],
           .error (.notFinished (noMarkerMsg
             (outputOf { fsC1 with outcar := some ls2 }
               (some (("77.q".splitOn ".").headD ""))) ls2))))
    ∧ Jasp envC1 {} { fsC1 with jobid := none } =
        ({ fsC1 with jobid := none }, [], .error .nameError) :=
  C1_exactly_once_hooks envC1 [⟨1, true⟩, ⟨2, true⟩] fsC1 "77.q" "x"
    "ok Voluntary context switches done"
    ["a", "ok Voluntary context switches done"]
    rfl rfl (by decide) rfl rfl rfl rfl (by decide) rfl rfl (by decide)

/-- C10: in the queued-not-yet-running state with no ase-sort.dat, the
identity sort and resort arrays are built as range(len(atoms)) from the
caller-supplied atoms argument, not from the POSCAR structure (whose
length n is arbitrary here); with atoms=None the branch fails with the
TypeError from len(None), so the call succeeds only when the caller
passed an atoms object. -/
theorem C10_sort_sized_from_atoms (env : Env) (fs : FS) (j : String) (n : Nat)
    (hq : env.inQueue = true)
    (himg : lookupKV env.incarParams.int_params "images" = none)
    (hincar : fs.incar = true) (hjob : fs.jobid = some j)
    (hrun : fs.running = false)
    (hsort : fs.ase_sort_dat = none) (hpos : fs.poscar = some n)
    (hkp : fs.kpoints = true) (hwav : fs.wavecar = true) :
    ((Jasp env { atoms := none } fs).2.2 = .error .typeError)
    ∧ (∀ m : Nat, ∃ fs2 c, Jasp env { atoms := some m } fs = (fs2, [], .ok c) ∧
        c.sort = some (List.range m) ∧ c.resort = some (List.range m) ∧
        c.atoms = some m ∧ c.vasp_queued = true) := by
  obtain ⟨fcwd, fdirs, fincar, fjobid, frunning, fcontcar, foutcar, fvxml,
    fchg, fwav, fsortd, fposcar, fkp, fmeta, fjout⟩ := fs
  dsimp only at hincar hjob hrun hsort hpos hkp hwav
  subst hincar
  subst hjob
  subst hrun
  subst hsort
  subst hpos
  subst hkp
  subst hwav
  constructor
  · have hsel : selectBranch env { atoms := none }
        ⟨fcwd, fdirs, true, some j, false, fcontcar, foutcar, fvxml,
         fchg, true, none, some n, true, fmeta, fjout⟩ = some .queuedWaiting := by
      unfold selectBranch
      simp [hq]
    unfold Jasp
    rw [hsel]
    unfold runBranch
    simp only [himg, Option.isSome_none]
    rfl
  · intro m
    have hsel : selectBranch env { atoms := some m }
        ⟨fcwd, fdirs, true, some j, false, fcontcar, foutcar, fvxml,
         fchg, true, none, some n, true, fmeta, fjout⟩ = some .queuedWaiting := by
      unfold selectBranch
      simp [hq]
    unfold Jasp
    rw [hsel]
    unfold runBranch
    simp only [himg, Option.isSome_none]
    cases fchg <;> cases fmeta <;>
      exact ⟨_, _, rfl, rfl, rfl, rfl, rfl⟩

def envC10 : Env :=
  { inQueue := true, incarParams := { int_params := [("nsw", 5)] },
    route := fun _ => .floatP }

def fsC10 : FS :=
  { cwd := "/w", incar := true, jobid := some "3.q", poscar := some 7,
    kpoints := true, wavecar := true }

theorem C10_witness :
    ((Jasp envC10 { atoms := none } fsC10).2.2 = .error .typeError)
    ∧ (∀ m : Nat, ∃ fs2 c, Jasp envC10 { atoms := some m } fsC10 = (fs2, [], .ok c) ∧
        c.sort = some (List.range m) ∧ c.resort = some (List.range m) ∧
        c.atoms = some m ∧ c.vasp_queued = true) :=
  C10_sort_sized_from_atoms envC10 fsC10 "3.q" 7 rfl (by decide)
    rfl rfl rfl rfl rfl rfl rfl

theorem jaspTail_ok_inv (env : Env) (args : Args) (fs0 : FS)
    (ev : List (Nat × Calc)) (c0 : Calc) (fs2 : FS) (ev2 : List (Nat × Calc))
    (c : Calc) (h : jaspTail env args fs0 ev c0 = (fs2, ev2, .ok c)) :
    ∃ p0 : Params,
      c.old_float_params = some p0.float_params ∧
      c.old_exp_params = some p0.exp_params ∧
      c.old_string_params = some p0.string_params ∧
      c.old_int_params = some p0.int_params ∧
      c.old_input_params = some p0.input_params ∧
      c.old_bool_params = some p0.bool_params ∧
      c.old_list_params = some p0.list_params ∧
      c.old_dict_params = some p0.dict_params ∧
      c.params = setParams env.route p0 args.kwargs ∧
      ((args.kwargs.map Prod.fst).Nodup →
        (∀ kv ∈ args.kwargs, lookupKV (pgGet (env.route kv.1) p0) kv.1 ≠ some kv.2) →
        diffGroups p0 c.params =
          allPGroups.filter
            (fun g => args.kwargs.any (fun kv => decide (env.route kv.1 = g)))) := by
  unfold jaspTail at h
  simp only [Prod.mk.injEq, Except.ok.injEq] at h
  obtain ⟨-, -, hc⟩ := h
  subst hc
  exact ⟨c0.params, rfl, rfl, rfl, rfl, rfl, rfl, rfl, rfl, rfl,
    fun hnd hch => diffGroups_setParams env.route args.kwargs c0.params hnd hch⟩

/-- C7: on every invocation of Jasp that returns a handle, the eight old_*
snapshot attributes hold copies of the eight parameter groups exactly as
they stood after state resolution and before calc.set(**kwargs) was
applied, the final parameters are the snapshot with the overrides applied,
and hence diffing the snapshot against the post-override parameters
reports exactly the groups receiving a value-changing override. -/
theorem C7_snapshot (env : Env) (args : Args) (fs fs2 : FS)
    (ev : List (Nat × Calc)) (c : Calc)
    (hrun : Jasp env args fs = (fs2, ev, .ok c)) :
    ∃ p0 : Params,
      c.old_float_params = some p0.float_params ∧
      c.old_exp_params = some p0.exp_params ∧
      c.old_string_params = some p0.string_params ∧
      c.old_int_params = some p0.int_params ∧
      c.old_input_params = some p0.input_params ∧
      c.old_bool_params = some p0.bool_params ∧
      c.old_list_params = some p0.list_params ∧
      c.old_dict_params = some p0.dict_params ∧
      c.params = setParams env.route p0 args.kwargs ∧
      ((args.kwargs.map Prod.fst).Nodup →
        (∀ kv ∈ args.kwargs, lookupKV (pgGet (env.route kv.1) p0) kv.1 ≠ some kv.2) →
        diffGroups p0 c.params =
          allPGroups.filter
            (fun g => args.kwargs.any (fun kv => decide (env.route kv.1 = g)))) := by
  unfold Jasp at hrun
  cases hsel : selectBranch env args fs with
  | none =>
    rw [hsel] at hrun
    unfold afterChain at hrun
    simp at hrun
  | some b =>
    simp only [hsel] at hrun
    rcases hrb : runBranch env args fs b with ⟨fs1, ev1, r⟩
    simp only [hrb] at hrun
    cases r with
    | error e => simp at hrun
    | ok out =>
      simp only [] at hrun
      cases out with
      | fall => unfold afterChain at hrun; simp at hrun
      | plain c1 => unfold afterChain at hrun; simp at hrun
      | withSelf c1 =>
        unfold afterChain at hrun
        dsimp only at hrun
        split at hrun
        all_goals
          split at hrun
          · exact jaspTail_ok_inv env args _ _ _ _ _ _ hrun
          · split at hrun
            · split at hrun
              · simp at hrun
              · exact jaspTail_ok_inv env args _ _ _ _ _ _ hrun
            · simp at hrun

def envC7 : Env :=
  { inQueue := true, incarParams := { int_params := [("nsw", 5)] },
    route := fun k => if k = "encut" then .floatP else .intP }

def fsC7 : FS :=
  { cwd := "/w", incar := true, jobid := some "3.q",
    ase_sort_dat := some [(0, 0)], poscar := some 1, kpoints := true,
    wavecar := true }

def argsC7 : Args := { kwargs := [("encut", 400)] }

def fsC7out : FS :=
  { cwd := "/w", incar := true, jobid := some "3.q",
    ase_sort_dat := some [(0, 0)], poscar := some 1, kpoints := true,
    wavecar := false, metadata := true }

def calcC7 : Calc :=
  { params := { float_params := [("encut", 400)], int_params := [("nsw", 5)] },
    old_float_params := some [], old_exp_params := some [],
    old_string_params := some [], old_int_params := some [("nsw", 5)],
    old_input_params := some [], old_bool_params := some [],
    old_list_params := some [], old_dict_params := some [],
    sort := some [0], resort := some [0], atoms := some 1,
    vasp_queued := true }

set_option maxRecDepth 100000 in
theorem C7_witness :
    ∃ p0 : Params,
      calcC7.old_float_params = some p0.float_params ∧
      calcC7.old_exp_params = some p0.exp_params ∧
      calcC7.old_string_params = some p0.string_params ∧
      calcC7.old_int_params = some p0.int_params ∧
      calcC7.old_input_params = some p0.input_params ∧
      calcC7.old_bool_params = some p0.bool_params ∧
      calcC7.old_list_params = some p0.list_params ∧
      calcC7.old_dict_params = some p0.dict_params ∧
      calcC7.params = setParams envC7.route p0 argsC7.kwargs ∧
      ((argsC7.kwargs.map Prod.fst).Nodup →
        (∀ kv ∈ argsC7.kwargs,
          lookupKV (pgGet (envC7.route kv.1) p0) kv.1 ≠ some kv.2) →
        diffGroups p0 calcC7.params =
          allPGroups.filter
            (fun g => argsC7.kwargs.any (fun kv => decide (envC7.route kv.1 = g)))) :=
  C7_snapshot envC7 argsC7 fsC7 fsC7out [] calcC7 (by decide)

theorem calculation_is_ok_cwd (fs : FS) (jid : Option String) :
    (calculation_is_ok fs jid).1.cwd = fs.cwd := by
  unfold calculation_is_ok
  dsimp only
  repeat' split
  all_goals rfl

theorem jaspTail_cwd (env : Env) (args : Args) (fs : FS)
    (ev : List (Nat × Calc)) (c : Calc) :
    (jaspTail env args fs ev c).1.cwd = fs.cwd := by
  unfold jaspTail
  dsimp only
  repeat' split
  all_goals rfl

theorem runBranch_cwd (env : Env) (args : Args) (fs : FS) (b : Branch) :
    (runBranch env args fs b).1.cwd = fs.cwd := by
  cases b with
  | finishedFirst =>
    unfold runBranch
    cases hj : fs.jobid with
    | none => rfl
    | some line =>
      rcases hv : calculation_is_ok fs (some ((line.splitOn ".").headD ""))
        with ⟨fs1, r⟩
      have h2 := congrArg (fun t : FS × Except JaspErr Bool => t.1.cwd) hv
      simp only [calculation_is_ok_cwd] at h2
      simp only [hv]
      cases r with
      | error e => exact h2.symm
      | ok b2 =>
        dsimp only
        repeat' split
        all_goals exact h2.symm
  | nebSpring =>
    unfold runBranch
    by_cases hn : env.nebLoadOk = true <;> simp [hn]
  | emptyDir => rfl
  | configuredNotSubmitted => unfold runBranch; dsimp only
  | queuedWaiting =>
    unfold runBranch
    dsimp only
    by_cases hi : (lookupKV env.incarParams.int_params "images").isSome = true
    · cases hk : fs.kpoints <;> simp [hi, hk]
    · have hi2 : (lookupKV env.incarParams.int_params "images").isSome = false := by
        simpa using hi
      cases hst : queuedStep args fs { freshCalc with params := env.incarParams } with
      | error e => simp [hi2, hst]
      | ok s2 => cases hk : fs.kpoints <;> simp [hi2, hst, hk]
  | queuedRunning => unfold runBranch; dsimp only

theorem afterChain_cwd (env : Env) (args : Args) (fs : FS)
    (ev : List (Nat × Calc)) (out : ChainOut) :
    (afterChain env args fs ev out).1.cwd = fs.cwd := by
  cases out with
  | fall => rfl
  | plain c => rfl
  | withSelf c =>
    unfold afterChain
    dsimp only
    have hcwd1 : (if (!args.keep_chgcar && fs.chgcar) = true
        then { fs with chgcar := false } else fs).cwd = fs.cwd := by
      split <;> rfl
    revert hcwd1
    generalize (if (!args.keep_chgcar && fs.chgcar) = true
        then { fs with chgcar := false } else fs : FS) = fs1g
    intro hcwd1
    split
    · exact (jaspTail_cwd env args _ ev _).trans hcwd1
    · split
      · rcases hv : calculation_is_ok fs1g none with ⟨fs2, r⟩
        have h2 : (fs2 : FS).cwd = fs1g.cwd := by
          have h0 := calculation_is_ok_cwd fs1g none
          rw [hv] at h0
          exact h0
        cases r with
        | error e => exact h2.trans hcwd1
        | ok b2 =>
          dsimp only
          exact (jaspTail_cwd env args _ ev _).trans (h2.trans hcwd1)
      · exact hcwd1

theorem Jasp_cwd (env : Env) (args : Args) (fs : FS) :
    (Jasp env args fs).1.cwd = fs.cwd := by
  unfold Jasp
  cases hsel : selectBranch env args fs with
  | none => exact afterChain_cwd env args fs [] .fall
  | some b =>
    rcases hrb : runBranch env args fs b with ⟨fs1, ev1, r⟩
    have h1 : (fs1 : FS).cwd = fs.cwd := by
      have h0 := runBranch_cwd env args fs b
      rw [hrb] at h0
      exact h0
    simp only [hsel, hrb]
    cases r with
    | error e => exact h1
    | ok out => exact (afterChain_cwd env args fs1 ev1 out).trans h1

theorem jasp_enter_error_cwd (env : Env) (args : Args) (vaspdir : String)
    (fs fs1 : FS) (ev : List (Nat × Calc)) (e : JaspErr)
    (h : jasp_enter env args vaspdir fs = (fs1, ev, .error e)) :
    fs1.cwd = vaspdir := by
  unfold jasp_enter at h
  dsimp only at h
  rcases hJ : Jasp env args
      { (if vaspdir ∈ fs.dirs then fs else { fs with dirs := vaspdir :: fs.dirs })
        with cwd := vaspdir } with ⟨fs3, ev3, r3⟩
  have h1 : (fs3 : FS).cwd = vaspdir := by
    have h0 := Jasp_cwd env args
      { (if vaspdir ∈ fs.dirs then fs else { fs with dirs := vaspdir :: fs.dirs })
        with cwd := vaspdir }
    rw [hJ] at h0
    exact h0
  rw [hJ] at h
  cases r3 with
  | error e3 =>
    simp only [Prod.mk.injEq] at h
    rw [h.1] at h1
    exact h1
  | ok c3 => simp at h

/-- C6 (amended): when the controller invocation inside enter returns a
handle, the context restores the original working directory on every exit
path of the body and never suppresses the body result; but when the
controller raises inside enter (validator failure, fatal state error,
or the NameError of the broken cleanup chain), Python never calls exit,
the exception escapes unchanged and the working directory is left at the
target directory, not restored. -/
theorem C6_restore (env : Env) (args : Args) (vaspdir : String) (fs : FS)
    (body : Calc → Except JaspErr Unit) :
    (∀ fs1 ev c, jasp_enter env args vaspdir fs = (fs1, ev, .ok c) →
      jasp_with env args vaspdir fs body = ({ fs1 with cwd := fs.cwd }, ev, body c)
      ∧ (jasp_with env args vaspdir fs body).1.cwd = fs.cwd)
    ∧ (∀ fs1 ev e, jasp_enter env args vaspdir fs = (fs1, ev, .error e) →
      jasp_with env args vaspdir fs body = (fs1, ev, .error e)
      ∧ fs1.cwd = vaspdir) := by
  constructor
  · intro fs1 ev c henter
    unfold jasp_with
    simp only [henter]
    exact ⟨rfl, rfl⟩
  · intro fs1 ev e henter
    constructor
    · unfold jasp_with
      simp only [henter]
    · exact jasp_enter_error_cwd env args vaspdir fs fs1 ev e henter

def envC6 : Env := { inQueue := false, incarParams := {}, route := fun _ => .floatP }

def fsC6 : FS :=
  { cwd := "/home", incar := true, jobid := some "9", contcar := some "" }

/-- C6 counterexample: on a directory whose validator fails (empty
result snapshot), the with-block leaves the process in the target
directory — the original working directory /home is not restored on the
validator-failure exit path, contrary to the claim. -/
theorem C6_counterexample :
    (jasp_with envC6 {} "/vasp" fsC6 (fun _ => .ok ())).1.cwd = "/vasp"
    ∧ fsC6.cwd = "/home"
    ∧ (jasp_with envC6 {} "/vasp" fsC6 (fun _ => .ok ())).2.2 =
        .error (.notFinished emptyContcarMsg) := by
  refine ⟨by decide, by decide, by decide⟩

def envW6 : Env :=
  { inQueue := true, incarParams := { int_params := [("nsw", 5)] },
    route := fun _ => .floatP }

def fsW6 : FS :=
  { cwd := "/home", incar := true, jobid := some "3.q",
    ase_sort_dat := some [(0, 0)], poscar := some 1, kpoints := true,
    wavecar := true }

def fsW6enter : FS :=
  { cwd := "/vasp", dirs := ["/vasp"], incar := true, jobid := some "3.q",
    ase_sort_dat := some [(0, 0)], poscar := some 1, kpoints := true,
    metadata := true }

def cW6 : Calc :=
  { params := { int_params := [("nsw", 5)] },
    old_float_params := some [], old_exp_params := some [],
    old_string_params := some [], old_int_params := some [("nsw", 5)],
    old_input_params := some [], old_bool_params := some [],
    old_list_params := some [], old_dict_params := some [],
    sort := some [0], resort := some [0], atoms := some 1,
    vasp_queued := true, vaspdir := some "/vasp", cwd := some "/home" }

def bodyW6 : Calc → Except JaspErr Unit := fun _ => .error (.hookError 99)

def fsC6err : FS :=
  { cwd := "/vasp", dirs := ["/vasp"], incar := true }

theorem C6_witness :
    (jasp_with envW6 {} "/vasp" fsW6 bodyW6 =
        ({ fsW6enter with cwd := fsW6.cwd }, [], bodyW6 cW6)
      ∧ (jasp_with envW6 {} "/vasp" fsW6 bodyW6).1.cwd = fsW6.cwd)
    ∧ (jasp_with envC6 {} "/vasp" fsC6 bodyW6 =
        (fsC6err, [], .error (.notFinished emptyContcarMsg))
      ∧ fsC6err.cwd = "/vasp") :=
  ⟨(C6_restore envW6 {} "/vasp" fsW6 bodyW6).1 fsW6enter [] cW6 (by decide),
   (C6_restore envC6 {} "/vasp" fsC6 bodyW6).2 fsC6err []
     (.notFinished emptyContcarMsg) (by decide)⟩

def envC4 : Env := { inQueue := false, incarParams := {}, route := fun _ => .floatP }

def fsC4 : FS :=
  { cwd := "/d", incar := true, jobid := some "8", contcar := some "" }

theorem C4_witness :
    calculation_is_ok fsC4 (some "8") =
      ({ fsC4 with contcar := none, jobid := none },
        .error (.notFinished emptyContcarMsg))
    ∧ selectBranch envC4 {} { fsC4 with contcar := none, jobid := none } =
        some .configuredNotSubmitted
    ∧ ∀ m : String,
        (Jasp envC4 {} { fsC4 with contcar := none, jobid := none }).2.2 ≠
          .error (.notFinished m) :=
  C4_empty_contcar envC4 {} fsC4 (some "8") "" "8" rfl rfl rfl rfl (by decide)
